import Mathlib

/-
  Shallow embedding of `app/main.py` of the fastapi-url-shortener
  repository: the URL record data model, the PostgreSQL-backed Store
  (modelled as a list of records), the Redis cache (modelled as an
  association list together with an availability mode), and the three
  endpoint handlers `create_short_url` (POST /shorten),
  `get_url_stats` (GET /stats/{code}) and `redirect_to_target_url`
  (GET /{code}).

  Modelling decisions, each tied to a line of the source:
  * `get_db_url_by_code` is `session.exec(select(URL).where(...)).first()`:
    the first record of the store whose `short_code` matches.
  * Python truthiness: `if url.short_code:` and `if not target_url:` treat
    both `None` and the empty string as false, so the embedding tests
    `Option String` values for `none` or `""` exactly where the source
    uses truthiness.
  * The Redis client is either `None` (`Cache.absent`, every `if
    redis_client:` guard skips the cache), a reachable server holding a
    key-value table (`Cache.avail`), or a client object whose awaited
    calls raise a connection error (`Cache.failing`).  The source has no
    try/except around cache calls, so a raising `await redis_client.get`
    aborts the request (`RedirectResult.cacheError`).
  * In the synchronous `create_short_url` handler the call
    `redis_client.set(short_code, db_url.target_url)` is an async method
    invoked without `await`: it builds a coroutine object that is never
    run, so no cache command is issued.  The embedding therefore leaves
    the cache unchanged on the create path.
  * `db_url.clicks += 1; session.add(db_url); session.commit()` is an
    application-level read-modify-write: the handler re-reads nothing,
    it commits the value computed from its earlier read.  `commitRecord`
    models the UPDATE-by-primary-key that the ORM emits.
-/

namespace UrlShortener

/-- The `URL` SQLModel table row: id, target_url, short_code, is_active, clicks. -/
structure URLRecord where
  id : Nat
  target_url : String
  short_code : String
  is_active : Bool
  clicks : Nat
deriving DecidableEq, Repr

/-- The request body of POST /shorten (`URLCreate`): a target URL and an
optional caller-supplied short code. -/
structure URLCreate where
  target_url : String
  short_code : Option String
deriving DecidableEq, Repr

/-- The durable Store: the rows of the `URL` table, in insertion order. -/
abbrev Store := List URLRecord

/-- The Redis cache as seen by the handlers: `absent` when `redis_client`
is `None`, `avail m` when the server is reachable and holds the pairs `m`
(most recent write first), `failing` when the client object exists but
every awaited command raises a connection error. -/
inductive Cache where
  | absent
  | avail (m : List (String × String))
  | failing
deriving DecidableEq, Repr

/-- Embeds `get_db_url_by_code`:
`session.exec(select(URL).where(URL.short_code == code)).first()`. -/
def get_db_url_by_code (code : String) (store : Store) : Option URLRecord :=
  store.find? (fun r => r.short_code == code)

/-- The 62-character alphabet of `generate_short_code`, as written in the
source. -/
def alphabet : String :=
  "abcdefghijklmnopqrstuvwxyzABCDEFGHIJKLMNOPQRSTUVWXYZ0123456789"

/-- The alphabet as a list of characters. -/
def alphabetChars : List Char := alphabet.toList

/-- One call of `secrets.choice(alphabet)`: the random source supplies an
index below 62 and `choice` returns that character of the alphabet. -/
def choiceChar (i : Fin 62) : Char :=
  alphabetChars.get ⟨i.val, by
    have h : alphabetChars.length = 62 := by decide
    exact lt_of_lt_of_eq i.isLt h.symm⟩

/-- Embeds `generate_short_code(length=7)`: join `length` successive
draws of `secrets.choice(alphabet)`.  The random source is passed as a
stream `draws` of indices; `offset` says how many draws earlier calls
consumed. -/
def generate_short_code (draws : Nat → Fin 62) (offset : Nat) (length : Nat) : String :=
  String.mk ((List.range length).map (fun j => choiceChar (draws (offset + j))))

/-- Embeds the `while True:` collision-retry loop of `create_short_url`:
draw a fresh 7-character code, break when it is not in the Store.  The
loop is given fuel because the source loop has no retry ceiling; `none`
models non-termination of the source loop. -/
def genRetry (draws : Nat → Fin 62) (store : Store) : Nat → Nat → Option String
  | 0, _ => none
  | fuel + 1, offset =>
      let sc := generate_short_code draws offset 7
      if (get_db_url_by_code sc store).isSome then
        genRetry draws store fuel (offset + 7)
      else
        some sc

/-- The client-visible outcome of POST /shorten: the persisted record
(HTTP 200) or the `CodeConflict` error (HTTP 409). -/
inductive CreateResult where
  | ok (rec : URLRecord)
  | conflict
deriving DecidableEq, Repr

/-- The persist step of `create_short_url`: build the record with
`is_active=true`, `clicks=0`, commit it (the Store assigns `nextId`), and
return it.  The subsequent `redis_client.set(short_code, ...)` is an
async method called without `await` inside a synchronous handler: the
coroutine is never executed, so the cache is returned unchanged. -/
def createPersist (target_url short_code : String) (nextId : Nat)
    (cache : Cache) (store : Store) : CreateResult × Cache × Store :=
  let db_url : URLRecord :=
    { id := nextId, target_url := target_url, short_code := short_code,
      is_active := true, clicks := 0 }
  (CreateResult.ok db_url, cache, store ++ [db_url])

/-- Embeds `create_short_url` (POST /shorten).  `if url.short_code:` is a
Python truthiness test, so both `None` and `""` take the auto-generate
branch; a truthy caller-supplied code that already exists raises the 409
before anything is written. -/
def create_short_url (url : URLCreate) (draws : Nat → Fin 62) (fuel nextId : Nat)
    (cache : Cache) (store : Store) : Option (CreateResult × Cache × Store) :=
  match url.short_code with
  | some sc =>
      if sc == "" then
        (genRetry draws store fuel 0).map
          (fun c => createPersist url.target_url c nextId cache store)
      else if (get_db_url_by_code sc store).isSome then
        some (CreateResult.conflict, cache, store)
      else
        some (createPersist url.target_url sc nextId cache store)
  | none =>
      (genRetry draws store fuel 0).map
        (fun c => createPersist url.target_url c nextId cache store)

/-- The client-visible outcome of GET /stats/{code}. -/
inductive StatsResult where
  | ok (short_code target_url : String) (clicks : Nat) (is_active : Bool)
  | notFound
deriving DecidableEq, Repr

/-- Embeds `get_url_stats` (GET /stats/{code}): look the code up in the
Store, 404 when absent, otherwise return the four fields.  The handler
never consults `is_active`. -/
def get_url_stats (short_code : String) (store : Store) : StatsResult :=
  match get_db_url_by_code short_code store with
  | none => StatsResult.notFound
  | some db_url =>
      StatsResult.ok db_url.short_code db_url.target_url db_url.clicks db_url.is_active

/-- The client-visible outcome of GET /{code}: the 307 redirect, the 404,
or an unhandled cache exception (surfaced as a 500 by the framework). -/
inductive RedirectResult where
  | redirect (url : String)
  | notFound
  | cacheError
deriving DecidableEq, Repr

/-- True exactly for the unhandled-cache-exception outcome. -/
def RedirectResult.isCacheError : RedirectResult → Bool
  | RedirectResult.cacheError => true
  | _ => false

/-- The `await redis_client.get(short_code)` step of the redirect
handler, guarded by `if redis_client:`: skipped when the client is
`None`, raises when the server is unreachable, otherwise the usual
lookup. -/
def cacheGet : Cache → String → Except Unit (Option String)
  | Cache.absent, _ => Except.ok none
  | Cache.failing, _ => Except.error ()
  | Cache.avail m, code => Except.ok (m.lookup code)

/-- The `await redis_client.set(short_code, target_url)` step of the
redirect handler, guarded by `if redis_client:`: a Redis SET overwrites
the key, modelled by prepending the pair (lookups see the newest
write). -/
def cacheSet : Cache → String → String → Cache
  | Cache.avail m, code, url => Cache.avail ((code, url) :: m)
  | c, _, _ => c

/-- The UPDATE that `session.add(db_url); session.commit()` emits:
replace the row whose primary key matches. -/
def commitRecord (store : Store) (upd : URLRecord) : Store :=
  store.map (fun r => if r.id == upd.id then upd else r)

/-- The Store-fallback path of the redirect handler (reached when the
cache produced no truthy value): 404 when the code is absent or the
record inactive, otherwise populate the cache, commit `clicks + 1`
computed from the record just read, and redirect. -/
def redirectMiss (short_code : String) (cache : Cache) (store : Store) :
    RedirectResult × Cache × Store :=
  match get_db_url_by_code short_code store with
  | none => (RedirectResult.notFound, cache, store)
  | some db_url =>
      if db_url.is_active then
        (RedirectResult.redirect db_url.target_url,
         cacheSet cache short_code db_url.target_url,
         commitRecord store { db_url with clicks := db_url.clicks + 1 })
      else
        (RedirectResult.notFound, cache, store)

/-- Embeds `redirect_to_target_url` (GET /{code}).  `if not target_url:`
is a Python truthiness test, so a cached empty string falls through to
the Store path exactly like a missing key. -/
def redirect_to_target_url (short_code : String) (cache : Cache) (store : Store) :
    RedirectResult × Cache × Store :=
  match cacheGet cache short_code with
  | Except.error _ => (RedirectResult.cacheError, cache, store)
  | Except.ok (some t) =>
      if t == "" then redirectMiss short_code cache store
      else (RedirectResult.redirect t, cache, store)
  | Except.ok none => redirectMiss short_code cache store

/-- Two concurrent cache-miss resolutions of the same code that
interleave as the handler's code permits: both run the read
(`get_db_url_by_code`) against the same Store snapshot before either
commits, then each commits `clicks + 1` computed from its own read —
the `db_url.clicks += 1; session.commit()` read-modify-write of the
source, executed twice. -/
def twoInterleavedMissUpdates (short_code : String) (store : Store) : Store :=
  match get_db_url_by_code short_code store with
  | none => store
  | some r =>
      let upd := { r with clicks := r.clicks + 1 }
      commitRecord (commitRecord store upd) upd

/-- Coherence of a cache state with a Store: every code the cache serves
exists in the Store.  Reachable states of the system satisfy this, since
the only executed cache write (`redirectMiss`) stores a code it just
found in the Store and Store rows are never deleted. -/
def cacheCoherent (cache : Cache) (store : Store) : Prop :=
  ∀ c t, cacheGet cache c = Except.ok (some t) → (get_db_url_by_code c store).isSome

end UrlShortener

namespace UrlShortener

/-- A found record carries the searched-for short code. -/
theorem get_db_some_short_code (code : String) (store : Store) (r : URLRecord)
    (hr : get_db_url_by_code code store = some r) : r.short_code = code := by
  have hr2 : store.find? (fun s => s.short_code == code) = some r := hr
  have hp := List.find?_some hr2
  simpa using hp

/-- A found record is a row of the Store. -/
theorem get_db_some_mem (code : String) (store : Store) (r : URLRecord)
    (hr : get_db_url_by_code code store = some r) : r ∈ store := by
  have hr2 : store.find? (fun s => s.short_code == code) = some r := hr
  exact List.mem_of_find?_eq_some hr2

/-- `find?` over a mapped list, when the map preserves the predicate on
every element of the list. -/
theorem find?_map_congr (q : URLRecord → Bool) (f : URLRecord → URLRecord)
    (l : List URLRecord) (hq : ∀ s ∈ l, q (f s) = q s) (r : URLRecord)
    (hr : l.find? q = some r) : (l.map f).find? q = some (f r) := by
  induction l with
  | nil => simp at hr
  | cons a t ih =>
      cases hqa : q a with
      | false =>
          rw [List.find?_cons_of_neg _ (by simp [hqa])] at hr
          rw [List.map_cons,
            List.find?_cons_of_neg _ (by simp [hq a (List.mem_cons_self a t), hqa])]
          exact ih (fun s hs => hq s (List.mem_cons_of_mem a hs)) hr
      | true =>
          rw [List.find?_cons_of_pos _ hqa] at hr
          obtain rfl : a = r := by injection hr
          rw [List.map_cons,
            List.find?_cons_of_pos _ (by rw [hq a (List.mem_cons_self a t)]; exact hqa)]

/-- Committing an UPDATE for the found record's primary key changes the
lookup of its code to the updated row, provided the primary key is
unique in the Store and the update keeps the short code. -/
theorem get_db_commitRecord (code : String) (store : Store) (r upd : URLRecord)
    (hr : get_db_url_by_code code store = some r)
    (hid : ∀ s ∈ store, s.id = r.id → s = r)
    (huid : upd.id = r.id) (husc : upd.short_code = r.short_code) :
    get_db_url_by_code code (commitRecord store upd) = some upd := by
  have hq : ∀ s ∈ store, ((if s.id == upd.id then upd else s).short_code == code)
      = (s.short_code == code) := by
    intro s hs
    cases hb : (s.id == upd.id) with
    | false => simp [hb]
    | true =>
        have hs_eq : s = r := hid s hs ((eq_of_beq hb).trans huid)
        subst hs_eq
        simp [husc]
  have hr2 : store.find? (fun s => s.short_code == code) = some r := hr
  have hmap := find?_map_congr (fun s => s.short_code == code)
    (fun s => if s.id == upd.id then upd else s) store hq r hr2
  have hfr : ((fun s : URLRecord => if s.id == upd.id then upd else s) r) = upd := by
    simp [huid]
  rw [hfr] at hmap
  exact hmap

/-- Appending a fresh record makes its code findable. -/
theorem get_db_append_self (store : Store) (rec : URLRecord)
    (h : get_db_url_by_code rec.short_code store = none) :
    get_db_url_by_code rec.short_code (store ++ [rec]) = some rec := by
  unfold get_db_url_by_code at h ⊢
  rw [List.find?_append, h, Option.none_or]
  exact List.find?_cons_of_pos _ (by simp)

/-- The Store-fallback branch on a found, active record: redirect,
cache write, click commit. -/
theorem redirectMiss_found_active (code : String) (cache : Cache) (store : Store)
    (r : URLRecord) (hr : get_db_url_by_code code store = some r)
    (ha : r.is_active = true) :
    redirectMiss code cache store
      = (RedirectResult.redirect r.target_url, cacheSet cache code r.target_url,
         commitRecord store { r with clicks := r.clicks + 1 }) := by
  unfold redirectMiss
  rw [hr]
  simp [ha]

/-- Whatever the collision-retry loop returns is a fresh draw of
`generate_short_code` that is not in the Store. -/
theorem genRetry_eq_some (draws : Nat → Fin 62) (store : Store) :
    ∀ fuel offset c, genRetry draws store fuel offset = some c →
      get_db_url_by_code c store = none ∧ ∃ k, c = generate_short_code draws k 7 := by
  intro fuel
  induction fuel with
  | zero =>
      intro offset c h
      simp [genRetry] at h
  | succ n ih =>
      intro offset c h
      simp only [genRetry] at h
      cases hg : (get_db_url_by_code (generate_short_code draws offset 7) store).isSome with
      | false =>
          rw [hg] at h
          simp only [Bool.false_eq_true, if_false] at h
          obtain rfl : generate_short_code draws offset 7 = c := by injection h
          refine ⟨Option.not_isSome_iff_eq_none.mp (by simp [hg]), offset, rfl⟩
      | true =>
          rw [hg] at h
          simp only [if_true] at h
          exact ih (offset + 7) c h

/-- A generated code has the requested length. -/
theorem generate_short_code_length (draws : Nat → Fin 62) (offset n : Nat) :
    (generate_short_code draws offset n).length = n := by
  have hmk : ∀ l : List Char, (String.mk l).length = l.length := fun _ => rfl
  unfold generate_short_code
  rw [hmk]
  simp

/-- Every character of a generated code is a character of the alphabet. -/
theorem generate_short_code_chars (draws : Nat → Fin 62) (offset n : Nat) :
    ∀ ch ∈ (generate_short_code draws offset n).toList, ch ∈ alphabetChars := by
  intro ch hch
  have hmk : (generate_short_code draws offset n).toList
      = (List.range n).map (fun j => choiceChar (draws (offset + j))) := rfl
  rw [hmk] at hch
  obtain ⟨j, _, rfl⟩ := List.mem_map.mp hch
  exact List.get_mem _ _ _

/-- Destructing the persist step. -/
theorem createPersist_dest (t sc : String) (nextId : Nat) (cache cache2 : Cache)
    (store store2 : Store) (rec : URLRecord)
    (hpc : createPersist t sc nextId cache store = (CreateResult.ok rec, cache2, store2)) :
    rec = { id := nextId, target_url := t, short_code := sc,
            is_active := true, clicks := 0 }
      ∧ cache2 = cache ∧ store2 = store ++ [rec] := by
  simp only [createPersist, Prod.mk.injEq, CreateResult.ok.injEq] at hpc
  obtain ⟨h1, h2, h3⟩ := hpc
  subst h1
  exact ⟨rfl, h2.symm, by rw [← h3]⟩

/-- Destructing a successful POST /shorten: the cache is untouched, the
new row is appended with the requested target, active, zero clicks, the
Store-assigned id, and a code that was free beforehand. -/
theorem create_ok_dest (url : URLCreate) (draws : Nat → Fin 62) (fuel nextId : Nat)
    (cache cache2 : Cache) (store store2 : Store) (rec : URLRecord)
    (h : create_short_url url draws fuel nextId cache store
          = some (CreateResult.ok rec, cache2, store2)) :
    cache2 = cache ∧ store2 = store ++ [rec] ∧ rec.target_url = url.target_url
      ∧ rec.is_active = true ∧ rec.clicks = 0 ∧ rec.id = nextId
      ∧ get_db_url_by_code rec.short_code store = none := by
  unfold create_short_url at h
  cases hsc : url.short_code with
  | none =>
      rw [hsc] at h
      simp only [] at h
      obtain ⟨c, hg, hpc⟩ := Option.map_eq_some'.mp h
      have hfree := (genRetry_eq_some draws store fuel 0 c hg).1
      obtain ⟨h1, h2, h3⟩ := createPersist_dest _ _ _ _ _ _ _ _ hpc
      subst h1
      exact ⟨h2, h3, rfl, rfl, rfl, rfl, hfree⟩
  | some sc =>
      rw [hsc] at h
      simp only [] at h
      by_cases hse : (sc == "") = true
      · rw [if_pos hse] at h
        obtain ⟨c, hg, hpc⟩ := Option.map_eq_some'.mp h
        have hfree := (genRetry_eq_some draws store fuel 0 c hg).1
        obtain ⟨h1, h2, h3⟩ := createPersist_dest _ _ _ _ _ _ _ _ hpc
        subst h1
        exact ⟨h2, h3, rfl, rfl, rfl, rfl, hfree⟩
      · rw [if_neg hse] at h
        by_cases hex : (get_db_url_by_code sc store).isSome = true
        · rw [if_pos hex] at h
          exact absurd h (by simp)
        · rw [if_neg hex] at h
          have hpc : createPersist url.target_url sc nextId cache store
              = (CreateResult.ok rec, cache2, store2) := by injection h
          have hfree : get_db_url_by_code sc store = none :=
            Option.not_isSome_iff_eq_none.mp hex
          obtain ⟨h1, h2, h3⟩ := createPersist_dest _ _ _ _ _ _ _ _ hpc
          subst h1
          exact ⟨h2, h3, rfl, rfl, rfl, rfl, hfree⟩

end UrlShortener

namespace UrlShortener

/-- C1: Round-trip — for every valid target_url, creating a short URL via
POST /shorten and then resolving the returned short_code via GET /{code}
redirects to that same target_url.  Hypotheses: the create succeeded, the
cache is coherent with the Store (every code the cache serves exists in
the Store — true of all reachable states), and the cache is not in the
raising-error mode. -/
theorem C1_round_trip (url : URLCreate) (draws : Nat → Fin 62) (fuel nextId : Nat)
    (cache cache2 : Cache) (store store2 : Store) (rec : URLRecord)
    (hok : create_short_url url draws fuel nextId cache store
            = some (CreateResult.ok rec, cache2, store2))
    (hcoh : cacheCoherent cache store)
    (hnf : cache ≠ Cache.failing) :
    (redirect_to_target_url rec.short_code cache2 store2).1
      = RedirectResult.redirect url.target_url := by
  obtain ⟨hc2, hs2, hturl, hact, _hclicks, _hid, hnone⟩ :=
    create_ok_dest url draws fuel nextId cache cache2 store store2 rec hok
  subst hs2
  rw [hc2]
  have hfound := get_db_append_self store rec hnone
  have hmissEq := redirectMiss_found_active rec.short_code cache (store ++ [rec]) rec hfound hact
  unfold redirect_to_target_url
  cases cache with
  | absent =>
      simp only [cacheGet]
      rw [hmissEq]
      simp [hturl]
  | failing => exact absurd rfl hnf
  | avail m =>
      cases hl : m.lookup rec.short_code with
      | some t =>
          have hsome := hcoh rec.short_code t (by simp [cacheGet, hl])
          rw [hnone] at hsome
          simp at hsome
      | none =>
          simp only [cacheGet, hl]
          rw [hmissEq]
          simp [hturl]

/-- C1 witness: a concrete create followed by a resolve returns the
created target. -/
theorem C1_round_trip_witness :
    (redirect_to_target_url "abc1234" Cache.absent
        [{ id := 1, target_url := "https://www.google.com", short_code := "abc1234",
           is_active := true, clicks := 0 }]).1
      = RedirectResult.redirect "https://www.google.com" := by
  have h := C1_round_trip
    { target_url := "https://www.google.com", short_code := some "abc1234" }
    (fun _ => (0 : Fin 62)) 1 1 Cache.absent Cache.absent []
    [{ id := 1, target_url := "https://www.google.com", short_code := "abc1234",
       is_active := true, clicks := 0 }]
    { id := 1, target_url := "https://www.google.com", short_code := "abc1234",
      is_active := true, clicks := 0 }
    (by decide)
    (by intro c t ht; simp [cacheGet] at ht)
    (by decide)
  exact h

/-- C2: resolving an existing active record on a cache miss (the code is
not in the available Cache) yields the redirect, commits exactly
clicks + 1 for that record, and writes the pair short_code → target_url
into the Cache, where the next lookup of the code finds the target.  The
primary-key-uniqueness hypothesis reflects the Store's id column. -/
theorem C2_miss_increments_and_populates (code : String) (m : List (String × String))
    (store : Store) (r : URLRecord)
    (hm : m.lookup code = none)
    (hr : get_db_url_by_code code store = some r)
    (ha : r.is_active = true)
    (hid : ∀ s ∈ store, s.id = r.id → s = r) :
    redirect_to_target_url code (Cache.avail m) store
        = (RedirectResult.redirect r.target_url,
           Cache.avail ((code, r.target_url) :: m),
           commitRecord store { r with clicks := r.clicks + 1 })
      ∧ get_db_url_by_code code (commitRecord store { r with clicks := r.clicks + 1 })
          = some { r with clicks := r.clicks + 1 }
      ∧ cacheGet (Cache.avail ((code, r.target_url) :: m)) code
          = Except.ok (some r.target_url) := by
  refine ⟨?_, ?_, ?_⟩
  · unfold redirect_to_target_url
    simp only [cacheGet, hm]
    rw [redirectMiss_found_active code (Cache.avail m) store r hr ha]
    rfl
  · exact get_db_commitRecord code store r { r with clicks := r.clicks + 1 } hr hid rfl rfl
  · simp [cacheGet, List.lookup]

/-- C2 witness: a concrete cache-miss resolve of an active record. -/
theorem C2_miss_witness :
    redirect_to_target_url "abc1234" (Cache.avail [])
        [{ id := 1, target_url := "http://x", short_code := "abc1234",
           is_active := true, clicks := 0 }]
      = (RedirectResult.redirect "http://x", Cache.avail [("abc1234", "http://x")],
         [{ id := 1, target_url := "http://x", short_code := "abc1234",
            is_active := true, clicks := 1 }]) := by
  have h := C2_miss_increments_and_populates "abc1234" []
    [{ id := 1, target_url := "http://x", short_code := "abc1234",
       is_active := true, clicks := 0 }]
    { id := 1, target_url := "http://x", short_code := "abc1234",
      is_active := true, clicks := 0 }
    (by decide) (by decide) (by decide) (by decide)
  exact h.1.trans (by decide)

/-- C3 counterexample: the Cache holds the pair ("abc1234", "") — the
code is in the Cache, a cache hit in the claim's sense — yet the handler
treats the falsy empty string as a miss (`if not target_url:`), falls
through to the Store, and mutates it: clicks goes from 5 to 6 and a
duplicate cache entry is written.  This contradicts "leaves the Store
entirely unchanged: in particular the record's clicks counter is not
incremented on this path" at this concrete state. -/
theorem C3_counterexample_empty_cached_value :
    redirect_to_target_url "abc1234" (Cache.avail [("abc1234", "")])
        [{ id := 1, target_url := "", short_code := "abc1234",
           is_active := true, clicks := 5 }]
      = (RedirectResult.redirect "", Cache.avail [("abc1234", ""), ("abc1234", "")],
         [{ id := 1, target_url := "", short_code := "abc1234",
            is_active := true, clicks := 6 }]) := by decide

/-- C3 (amended): on a cache hit with a nonempty cached value, GET
/{code} returns the cached target URL and leaves both the Store and the
Cache entirely unchanged; in particular clicks is not incremented. -/
theorem C3_cache_hit_frame (code t : String) (m : List (String × String)) (store : Store)
    (hm : m.lookup code = some t) (ht : t ≠ "") :
    redirect_to_target_url code (Cache.avail m) store
      = (RedirectResult.redirect t, Cache.avail m, store) := by
  unfold redirect_to_target_url
  simp only [cacheGet, hm]
  simp [ht]

/-- C3 witness: a concrete cache hit returns the cached URL and changes
nothing. -/
theorem C3_cache_hit_witness :
    redirect_to_target_url "abc1234" (Cache.avail [("abc1234", "http://x")])
        [{ id := 1, target_url := "http://x", short_code := "abc1234",
           is_active := true, clicks := 3 }]
      = (RedirectResult.redirect "http://x", Cache.avail [("abc1234", "http://x")],
         [{ id := 1, target_url := "http://x", short_code := "abc1234",
            is_active := true, clicks := 3 }]) := by
  exact C3_cache_hit_frame "abc1234" "http://x" [("abc1234", "http://x")]
    [{ id := 1, target_url := "http://x", short_code := "abc1234",
       is_active := true, clicks := 3 }]
    (by decide) (by decide)

/-- C4: POST /shorten with a caller-supplied short_code that already
exists in the Store fails with CodeConflict (409) and returns the Store
and Cache unchanged.  The well-formedness hypothesis (no Store row has an
empty code) holds in every reachable state, since both create branches
persist nonempty codes. -/
theorem C4_conflict_preserves_store (url : URLCreate) (sc : String)
    (draws : Nat → Fin 62) (fuel nextId : Nat) (cache : Cache) (store : Store)
    (r : URLRecord)
    (hsc : url.short_code = some sc)
    (hr : get_db_url_by_code sc store = some r)
    (hwf : ∀ s ∈ store, s.short_code ≠ "") :
    create_short_url url draws fuel nextId cache store
      = some (CreateResult.conflict, cache, store) := by
  have hrs : r.short_code = sc := get_db_some_short_code sc store r hr
  have hne : sc ≠ "" := hrs ▸ hwf r (get_db_some_mem sc store r hr)
  unfold create_short_url
  rw [hsc]
  simp only []
  rw [if_neg (by simpa using hne)]
  rw [if_pos (by simp [hr])]

/-- C4 witness: a concrete duplicate caller-supplied code is rejected
with the Store untouched. -/
theorem C4_conflict_witness :
    create_short_url { target_url := "https://x.com", short_code := some "abc1234" }
        (fun _ => (0 : Fin 62)) 1 2 Cache.absent
        [{ id := 1, target_url := "http://x", short_code := "abc1234",
           is_active := true, clicks := 0 }]
      = some (CreateResult.conflict, Cache.absent,
          [{ id := 1, target_url := "http://x", short_code := "abc1234",
             is_active := true, clicks := 0 }]) := by
  exact C4_conflict_preserves_store
    { target_url := "https://x.com", short_code := some "abc1234" } "abc1234"
    (fun _ => (0 : Fin 62)) 1 2 Cache.absent
    [{ id := 1, target_url := "http://x", short_code := "abc1234",
       is_active := true, clicks := 0 }]
    { id := 1, target_url := "http://x", short_code := "abc1234",
      is_active := true, clicks := 0 }
    rfl (by decide) (by decide)

end UrlShortener

namespace UrlShortener

/-- C5 counterexample: the Store row for "abc1234" has is_active false,
yet because the Cache still holds the pair the handler serves a 307
redirect from the Cache, not the 404 the claim requires (the stale
active-flag window the spec itself documents in its concurrency
section). -/
theorem C5_counterexample_cached_inactive :
    redirect_to_target_url "abc1234" (Cache.avail [("abc1234", "http://x")])
        [{ id := 1, target_url := "http://x", short_code := "abc1234",
           is_active := false, clicks := 7 }]
      = (RedirectResult.redirect "http://x", Cache.avail [("abc1234", "http://x")],
         [{ id := 1, target_url := "http://x", short_code := "abc1234",
            is_active := false, clicks := 7 }]) := by decide

/-- C5 (amended): for every code that is absent from the Store or whose
record has is_active false, GET /{code} fails with NotFound (404)
provided the request reaches the Store path: the cache lookup yields no
truthy value (client absent, key missing, or cached value empty). -/
theorem C5_notfound_on_store_path (code : String) (cache : Cache) (store : Store)
    (hmiss : cacheGet cache code = Except.ok none
        ∨ cacheGet cache code = Except.ok (some ""))
    (hstore : get_db_url_by_code code store = none
        ∨ ∃ r, get_db_url_by_code code store = some r ∧ r.is_active = false) :
    redirect_to_target_url code cache store = (RedirectResult.notFound, cache, store) := by
  have hm : redirectMiss code cache store = (RedirectResult.notFound, cache, store) := by
    unfold redirectMiss
    rcases hstore with h | ⟨r, hrr, hact⟩
    · rw [h]
    · rw [hrr]
      simp [hact]
  unfold redirect_to_target_url
  rcases hmiss with h | h
  · rw [h]
    simp only []
    exact hm
  · rw [h]
    simp only []
    rw [if_pos (by decide)]
    exact hm

/-- C5 witness: a concrete inactive record with no cache entry resolves
to 404. -/
theorem C5_notfound_witness :
    redirect_to_target_url "abc1234" Cache.absent
        [{ id := 1, target_url := "http://x", short_code := "abc1234",
           is_active := false, clicks := 0 }]
      = (RedirectResult.notFound, Cache.absent,
         [{ id := 1, target_url := "http://x", short_code := "abc1234",
            is_active := false, clicks := 0 }]) := by
  exact C5_notfound_on_store_path "abc1234" Cache.absent
    [{ id := 1, target_url := "http://x", short_code := "abc1234",
       is_active := false, clicks := 0 }]
    (Or.inl rfl)
    (Or.inr ⟨{ id := 1, target_url := "http://x", short_code := "abc1234",
               is_active := false, clicks := 0 }, by decide, rfl⟩)

/-- C6: every auto-generated short code returned by a successful POST
/shorten is exactly 7 characters long, each character drawn from the
62-character alphanumeric alphabet, and the code was not present in the
Store at the moment of allocation (the retry loop re-draws until an
unused code is found). -/
theorem C6_autogen_code_wf (url : URLCreate) (draws : Nat → Fin 62) (fuel nextId : Nat)
    (cache cache2 : Cache) (store store2 : Store) (rec : URLRecord)
    (hauto : url.short_code = none)
    (hok : create_short_url url draws fuel nextId cache store
            = some (CreateResult.ok rec, cache2, store2)) :
    rec.short_code.length = 7
      ∧ (∀ ch ∈ rec.short_code.toList, ch ∈ alphabetChars)
      ∧ alphabetChars.length = 62
      ∧ get_db_url_by_code rec.short_code store = none := by
  unfold create_short_url at hok
  rw [hauto] at hok
  simp only [] at hok
  obtain ⟨c, hg, hpc⟩ := Option.map_eq_some'.mp hok
  obtain ⟨hfree, k, hck⟩ := genRetry_eq_some draws store fuel 0 c hg
  obtain ⟨h1, _h2, _h3⟩ := createPersist_dest _ _ _ _ _ _ _ _ hpc
  subst h1
  subst hck
  exact ⟨generate_short_code_length draws k 7,
         generate_short_code_chars draws k 7,
         by decide,
         hfree⟩

/-- C6 witness: with an all-zero random stream the generated code is the
7-character string "aaaaaaa", fresh for the empty Store. -/
theorem C6_autogen_witness :
    "aaaaaaa".length = 7 ∧ get_db_url_by_code "aaaaaaa" [] = none := by
  have h := C6_autogen_code_wf { target_url := "u", short_code := none }
    (fun _ => (0 : Fin 62)) 1 1 Cache.absent Cache.absent []
    [{ id := 1, target_url := "u", short_code := "aaaaaaa",
       is_active := true, clicks := 0 }]
    { id := 1, target_url := "u", short_code := "aaaaaaa",
      is_active := true, clicks := 0 }
    rfl (by decide)
  exact ⟨h.1, h.2.2.2⟩

/-- C7 (code bug): the claim says a successful POST /shorten writes the
pair short_code → target_url into the Cache so the next resolve is a
cache hit.  In the source the handler is synchronous and calls the async
`redis_client.set(short_code, db_url.target_url)` without `await`: the
coroutine is never executed, so the Cache stays unchanged.  Concretely,
creating "abc1234" with a working empty Cache leaves the Cache empty,
and the next GET /abc1234 is a cache miss: it takes the Store path and
commits clicks = 1 (a cache hit would have left the Store unchanged). -/
theorem C7_create_does_not_prime_cache :
    create_short_url { target_url := "https://www.google.com", short_code := some "abc1234" }
        (fun _ => (0 : Fin 62)) 1 1 (Cache.avail []) []
      = some (CreateResult.ok
            { id := 1, target_url := "https://www.google.com", short_code := "abc1234",
              is_active := true, clicks := 0 },
          Cache.avail [],
          [{ id := 1, target_url := "https://www.google.com", short_code := "abc1234",
             is_active := true, clicks := 0 }])
    ∧ redirect_to_target_url "abc1234" (Cache.avail [])
        [{ id := 1, target_url := "https://www.google.com", short_code := "abc1234",
           is_active := true, clicks := 0 }]
      = (RedirectResult.redirect "https://www.google.com",
         Cache.avail [("abc1234", "https://www.google.com")],
         [{ id := 1, target_url := "https://www.google.com", short_code := "abc1234",
            is_active := true, clicks := 1 }]) := by
  exact ⟨by decide, by decide⟩

/-- C8 counterexample: with the same Store, GET /abc1234 returns the 307
redirect on the Store-only (client absent) path but aborts with the
unhandled cache exception when the cache client raises — the
client-visible results differ, so a Cache failure does fail the
request. -/
theorem C8_counterexample_failing_cache :
    ((redirect_to_target_url "abc1234" Cache.failing
        [{ id := 1, target_url := "http://x", short_code := "abc1234",
           is_active := true, clicks := 0 }]).1,
     (redirect_to_target_url "abc1234" Cache.absent
        [{ id := 1, target_url := "http://x", short_code := "abc1234",
           is_active := true, clicks := 0 }]).1)
      = (RedirectResult.cacheError, RedirectResult.redirect "http://x") := by decide

/-- C8 (amended): Cache absence never causes a request to fail.  POST
/shorten's client-visible result and Store effect are independent of
the cache state entirely (its cache write is never executed) and it
passes the cache through unchanged; GET /{code} with no cache client
never surfaces a cache error.  (An erroring cache client, by contrast,
aborts GET /{code}, as the counterexample shows.) -/
theorem C8_cache_absence_degrades :
    (∀ (url : URLCreate) (draws : Nat → Fin 62) (fuel nextId : Nat)
        (c1 c2 : Cache) (store : Store),
        (create_short_url url draws fuel nextId c1 store).map (fun out => (out.1, out.2.2))
          = (create_short_url url draws fuel nextId c2 store).map (fun out => (out.1, out.2.2)))
    ∧ (∀ (url : URLCreate) (draws : Nat → Fin 62) (fuel nextId : Nat)
        (c : Cache) (store : Store),
        (create_short_url url draws fuel nextId c store).map (fun out => out.2.1)
          = (create_short_url url draws fuel nextId c store).map (fun _ => c))
    ∧ (∀ (code : String) (store : Store),
        ((redirect_to_target_url code Cache.absent store).1).isCacheError = false) := by
  refine ⟨?_, ?_, ?_⟩
  · intro url draws fuel nextId c1 c2 store
    rcases url with ⟨t, osc⟩
    cases osc with
    | none =>
        unfold create_short_url
        simp only []
        cases genRetry draws store fuel 0 <;> simp [createPersist]
    | some sc =>
        unfold create_short_url
        simp only []
        by_cases hse : (sc == "") = true
        · rw [if_pos hse, if_pos hse]
          cases genRetry draws store fuel 0 <;> simp [createPersist]
        · rw [if_neg hse, if_neg hse]
          by_cases hex : (get_db_url_by_code sc store).isSome = true
          · rw [if_pos hex, if_pos hex]
            rfl
          · rw [if_neg hex, if_neg hex]
            simp [createPersist]
  · intro url draws fuel nextId c store
    rcases url with ⟨t, osc⟩
    cases osc with
    | none =>
        unfold create_short_url
        simp only []
        cases genRetry draws store fuel 0 <;> simp [createPersist]
    | some sc =>
        unfold create_short_url
        simp only []
        by_cases hse : (sc == "") = true
        · rw [if_pos hse]
          cases genRetry draws store fuel 0 <;> simp [createPersist]
        · rw [if_neg hse]
          by_cases hex : (get_db_url_by_code sc store).isSome = true
          · rw [if_pos hex]
            rfl
          · rw [if_neg hex]
            simp [createPersist]
  · intro code store
    unfold redirect_to_target_url
    simp only [cacheGet]
    unfold redirectMiss
    cases hf : get_db_url_by_code code store with
    | none => simp [RedirectResult.isCacheError]
    | some r =>
        cases ha : r.is_active with
        | false => simp [ha, RedirectResult.isCacheError]
        | true => simp [ha, RedirectResult.isCacheError]

/-- C9 counterexample: two concurrent cache-miss resolutions of
"abc1234" that both read the record (clicks = 0) before either commits
leave clicks = 1, not 2 — the second application-level read-modify-write
overwrites the first, a lost update that an atomic Store-side add could
not produce.  This refutes the claim that the increment is an atomic add
at the Store. -/
theorem C9_counterexample_lost_update :
    twoInterleavedMissUpdates "abc1234"
        [{ id := 1, target_url := "http://x", short_code := "abc1234",
           is_active := true, clicks := 0 }]
      = [{ id := 1, target_url := "http://x", short_code := "abc1234",
           is_active := true, clicks := 1 }] := by decide

/-- C9 (amended): the click increment on the cache-miss path is an
application-level read-modify-write — the handler's Store effect is to
commit clicks + 1 computed from the record it read — and therefore two
concurrent cache-miss resolutions of the same code whose reads both
precede the commits increment clicks by only 1 in total (a lost
update). -/
theorem C9_rmw_lost_update (code : String) (store : Store) (r : URLRecord)
    (hr : get_db_url_by_code code store = some r)
    (hid : ∀ s ∈ store, s.id = r.id → s = r) :
    (r.is_active = true →
       (redirect_to_target_url code Cache.absent store).2.2
         = commitRecord store { r with clicks := r.clicks + 1 })
    ∧ get_db_url_by_code code (twoInterleavedMissUpdates code store)
        = some { r with clicks := r.clicks + 1 } := by
  constructor
  · intro ha
    unfold redirect_to_target_url
    simp only [cacheGet]
    rw [redirectMiss_found_active code Cache.absent store r hr ha]
  · unfold twoInterleavedMissUpdates
    rw [hr]
    simp only []
    have h1 : get_db_url_by_code code (commitRecord store { r with clicks := r.clicks + 1 })
        = some { r with clicks := r.clicks + 1 } :=
      get_db_commitRecord code store r _ hr hid rfl rfl
    have hid2 : ∀ s ∈ commitRecord store { r with clicks := r.clicks + 1 },
        s.id = ({ r with clicks := r.clicks + 1 } : URLRecord).id
          → s = { r with clicks := r.clicks + 1 } := by
      intro s hs hsid
      unfold commitRecord at hs
      obtain ⟨s0, _hs0, rfl⟩ := List.mem_map.mp hs
      by_cases hb : (s0.id == ({ r with clicks := r.clicks + 1 } : URLRecord).id) = true
      · simp [hb]
      · rw [if_neg hb] at hsid ⊢
        exact absurd (by simp [hsid]) hb
    exact get_db_commitRecord code (commitRecord store _) _ _ h1 hid2 rfl rfl

/-- C9 witness: the concrete single-resolution Store effect and the
concrete interleaved outcome. -/
theorem C9_rmw_witness :
    (redirect_to_target_url "abc1234" Cache.absent
        [{ id := 1, target_url := "http://x", short_code := "abc1234",
           is_active := true, clicks := 0 }]).2.2
      = [{ id := 1, target_url := "http://x", short_code := "abc1234",
           is_active := true, clicks := 1 }]
    ∧ get_db_url_by_code "abc1234" (twoInterleavedMissUpdates "abc1234"
        [{ id := 1, target_url := "http://x", short_code := "abc1234",
           is_active := true, clicks := 0 }])
      = some { id := 1, target_url := "http://x", short_code := "abc1234",
               is_active := true, clicks := 1 } := by
  have h := C9_rmw_lost_update "abc1234"
    [{ id := 1, target_url := "http://x", short_code := "abc1234",
       is_active := true, clicks := 0 }]
    { id := 1, target_url := "http://x", short_code := "abc1234",
      is_active := true, clicks := 0 }
    (by decide) (by decide)
  exact ⟨(h.1 rfl).trans (by decide), h.2⟩

/-- C10: GET /stats/{code} never checks is_active — for every record in
the Store it returns 200 with the record's four fields, even when the
record is inactive and GET /{code} for the same code (on the Store path)
returns 404. -/
theorem C10_stats_ignores_is_active (code : String) (store : Store) (r : URLRecord)
    (hr : get_db_url_by_code code store = some r) :
    get_url_stats code store
        = StatsResult.ok r.short_code r.target_url r.clicks r.is_active
      ∧ (r.is_active = false →
          (redirect_to_target_url code Cache.absent store).1 = RedirectResult.notFound) := by
  constructor
  · unfold get_url_stats
    rw [hr]
  · intro ha
    unfold redirect_to_target_url
    simp only [cacheGet]
    unfold redirectMiss
    rw [hr]
    simp [ha]

/-- C10 witness: a concrete inactive record: stats answers 200 with its
fields while the redirect endpoint answers 404. -/
theorem C10_stats_witness :
    get_url_stats "abc1234"
        [{ id := 1, target_url := "http://x", short_code := "abc1234",
           is_active := false, clicks := 3 }]
      = StatsResult.ok "abc1234" "http://x" 3 false
    ∧ (redirect_to_target_url "abc1234" Cache.absent
        [{ id := 1, target_url := "http://x", short_code := "abc1234",
           is_active := false, clicks := 3 }]).1
      = RedirectResult.notFound := by
  have h := C10_stats_ignores_is_active "abc1234"
    [{ id := 1, target_url := "http://x", short_code := "abc1234",
       is_active := false, clicks := 3 }]
    { id := 1, target_url := "http://x", short_code := "abc1234",
      is_active := false, clicks := 3 }
    (by decide)
  exact ⟨h.1, h.2 rfl⟩

end UrlShortener
